import Mathlib

/-!
Verification of the `either` library (`src/either/either.py`): a disjoint-union
result type `Either` with two factory constructors, a `match` accessor, and two
adapters (`as_either`, `as_async_either`) that convert raised exceptions into
failure payloads.

Embedding conventions:
* A Python value of payload type `α` is modelled as `Option α`, where `none`
  stands for the Python value `None`.  The dataclass fields `ok` and `err` are
  thus `Option α` / `Option β`, exactly as in the source, which encodes
  "payload absent" as `None`.
* Raising an exception is modelled by an `Except` / `PyResult` return value.
  Python distinguishes ordinary catchable exceptions (`Exception`) from
  process-level ones (`BaseException` that are not `Exception`); `PyResult`
  keeps the two apart, since `except Exception` catches only the former.
* An async computation is modelled as a finite sequence of suspension points
  ending in a settled outcome (`AsyncComp`); awaiting it is `AsyncComp.settle`.
-/

/-- Error taxonomy of the library (`EitherError` base with two
specializations), from `src/either/either.py` lines 13-22.  Each carries the
message string it is raised with. -/
inductive EitherError where
  | privateConstructorError (msg : String)
  | unreachableError (msg : String)
deriving DecidableEq, Repr

/-- The frozen dataclass `Either` (`src/either/either.py` lines 25-51): fields
`ok : Optional[TOk]`, `err : Optional[TErr]`, `is_ok : bool`.  `none` models
the Python `None`. -/
structure Either (α β : Type) where
  ok : Option α
  err : Option β
  is_ok : Bool
deriving DecidableEq, Repr

/-- `Either.__new__` (`src/either/either.py` lines 53-61): any direct
construction attempt, whatever the field values supplied, raises
`PrivateConstructorError` with a fixed message and never yields an instance. -/
def Either.new (α β : Type) (ok : Option α) (err : Option β) (is_ok : Bool) :
    Except EitherError (Either α β) :=
  Except.error
    (EitherError.privateConstructorError
      "Use Either.Ok or Either.Err to create an instance.")

/-- Factory `Either.Ok` (`src/either/either.py` lines 63-87): bypasses
`__new__` via `object.__new__` and sets `err := None`, `ok := ok`,
`is_ok := True`.  The argument is any Python value, possibly `None`. -/
def Either.Ok (v : Option α) : Either α β :=
  { ok := v, err := none, is_ok := true }

/-- Factory `Either.Err` (`src/either/either.py` lines 89-113): sets
`err := err`, `ok := None`, `is_ok := False`. -/
def Either.Err (v : Option β) : Either α β :=
  { ok := none, err := v, is_ok := false }

/-- `Either.match` (`src/either/either.py` lines 115-155), named `match'` here
because `match` is a Lean keyword.  It pattern-matches on the triple
`(self.is_ok, self.ok, self.err)`:
`(True, _ok, None)` with `_ok is not None` applies `ok_fn`;
`(False, None, _err)` with `_err is not None` applies `err_fn`;
every other shape raises `UnreachableError`. -/
def Either.match' (self : Either α β) (ok_fn : α → T) (err_fn : β → T) :
    Except EitherError T :=
  match self.is_ok, self.ok, self.err with
  | true, some o, none => Except.ok (ok_fn o)
  | false, none, some e => Except.ok (err_fn e)
  | _, _, _ =>
    Except.error (EitherError.unreachableError "Either is in an invalid state.")

/-- Outcome of calling a Python function: normal return, raising an ordinary
catchable exception (an `Exception` instance), or raising a process-level
fault (a `BaseException` that is not an `Exception`, e.g. `KeyboardInterrupt`),
which `except Exception` does not catch. -/
inductive PyResult (α ε : Type) where
  | ret (v : α)
  | raiseExc (e : ε)
  | raiseBase (e : ε)
deriving DecidableEq, Repr

/-- `as_either` (`src/either/either.py` lines 158-200): wraps `fn`; the inner
function does `try: return Either.Ok(fn(*args, **kwargs))` and
`except Exception as exc: return Either.Err(exc)`.  A normal return value `v`
(possibly `None`) becomes `Either.Ok v`; a caught exception object becomes the
`err` payload unchanged; a non-`Exception` `BaseException` is not caught and
propagates. -/
def as_either (fn : γ → PyResult (Option α) ε) : γ → PyResult (Either α ε) ε :=
  fun x =>
    match fn x with
    | .ret v => .ret (Either.Ok v)
    | .raiseExc e => .ret (Either.Err (some e))
    | .raiseBase e => .raiseBase e

/-- A suspendable (async) computation: finitely many cooperative suspension
points followed by a settled outcome. -/
inductive AsyncComp (α ε : Type) where
  | done (r : PyResult α ε)
  | suspend (c : AsyncComp α ε)
deriving DecidableEq, Repr

/-- Awaiting an async computation to completion: run through all suspension
points and return the settled outcome. -/
def AsyncComp.settle : AsyncComp α ε → PyResult α ε
  | .done r => r
  | .suspend c => c.settle

/-- `as_async_either` (`src/either/either.py` lines 203-242): the inner
coroutine does `try: return Either.Ok(await fn(*args, **kwargs))` and
`except Exception as exc: return Either.Err(exc)`.  The `try` block spans the
whole `await`: suspensions of `fn` pass through unchanged, and once `fn`
settles, a value becomes `Either.Ok`, a caught exception becomes `Either.Err`,
and a non-`Exception` `BaseException` propagates.  `asyncTryWrap` is that
body as a function of the awaited computation. -/
def asyncTryWrap : AsyncComp (Option α) ε → AsyncComp (Either α ε) ε
  | .done (.ret v) => .done (.ret (Either.Ok v))
  | .done (.raiseExc e) => .done (.ret (Either.Err (some e)))
  | .done (.raiseBase e) => .done (.raiseBase e)
  | .suspend c => .suspend (asyncTryWrap c)

/-- The wrapped coroutine returned by `as_async_either`: await `fn`, then
convert its settled outcome exactly as `as_either` does. -/
def as_async_either (fn : γ → AsyncComp (Option α) ε) :
    γ → AsyncComp (Either α ε) ε :=
  fun x => asyncTryWrap (fn x)

/-- One call of `match` with the instance threaded through explicitly as
state: the method body (`src/either/either.py` lines 148-155) only reads
`self.is_ok`, `self.ok`, `self.err` and performs no assignment (the dataclass
is `frozen=True, slots=True`), so the post-call instance is the receiver
unchanged. -/
def Either.matchCall (self : Either α β) (ok_fn : α → T) (err_fn : β → T) :
    Except EitherError T × Either α β :=
  (self.match' ok_fn err_fn, self)

/-- Call `match` `n` times in sequence on the same instance, threading the
instance state through each call; collects the `n` results and the final
state. -/
def Either.matchIter (self : Either α β) (ok_fn : α → T) (err_fn : β → T) :
    Nat → List (Except EitherError T) × Either α β
  | 0 => ([], self)
  | n + 1 =>
    let step := self.matchCall ok_fn err_fn
    let rest := step.2.matchIter ok_fn err_fn n
    (step.1 :: rest.1, rest.2)

/-- Transcribes the spec's invariant (spec section 3): exactly one of the two
payloads is present, and the discriminant flag is consistent with which one. -/
def specInvariant (e : Either α β) : Prop :=
  (e.ok.isSome ∧ e.err.isNone ∧ e.is_ok = true) ∨
  (e.ok.isNone ∧ e.err.isSome ∧ e.is_ok = false)

instance (e : Either α β) : Decidable (specInvariant e) := by
  unfold specInvariant; infer_instance

/-- A sample wrapped operation, the spec's division example: `divide (a, b)`
returns `a / b` and raises a `ZeroDivisionError` when `b = 0`. -/
def divide (p : Nat × Nat) : PyResult (Option Nat) String :=
  if p.2 = 0 then .raiseExc "ZeroDivisionError" else .ret (some (p.1 / p.2))

/-- A sample operation that raises a process-level fault (a `BaseException`
that is not an `Exception`). -/
def interrupted (_x : Nat) : PyResult (Option Nat) String :=
  .raiseBase "KeyboardInterrupt"

/-- A sample async operation: one suspension point, then the outcome of
`divide`. -/
def asyncDivide (p : Nat × Nat) : AsyncComp (Option Nat) String :=
  .suspend (.done (divide p))

lemma asyncTryWrap_settle (c : AsyncComp (Option α) ε) :
    (asyncTryWrap c).settle =
      match c.settle with
      | PyResult.ret v => PyResult.ret (Either.Ok v)
      | PyResult.raiseExc e => PyResult.ret (Either.Err (some e))
      | PyResult.raiseBase e => PyResult.raiseBase e := by
  induction c with
  | done r => cases r <;> rfl
  | suspend c ih => simpa [asyncTryWrap, AsyncComp.settle] using ih

/-- C1: the claim reads "for every value v, construct-success(v).match(id,
fail) returns v".  It fails at the Python value `None`: `Either.Ok(None)`
yields an instance on which `match` raises `UnreachableError` instead of
returning `None`. -/
theorem c1_ok_none_breaks_roundtrip :
    ¬ ((Either.Ok (β := Nat) (none : Option Nat)).match'
        (fun a => some a) (fun _ => (none : Option Nat)) =
      Except.ok (none : Option Nat)) := by
  simp [Either.Ok, Either.match']

/-- C1 (amended): for every non-None value v, `Either.Ok v` matched with the
identity as success branch returns v and its `err` field is absent (`None`);
symmetrically, for every non-None value e, `Either.Err e` matched with the
identity as failure branch returns e and its `ok` field is absent. -/
theorem c1_roundtrip (α β : Type) (a : α) (b : β)
    (g : β → Option α) (f : α → Option β) :
    (Either.Ok (β := β) (some a)).match' (fun x => some x) g =
        Except.ok (some a) ∧
      (Either.Ok (β := β) (some a) : Either α β).err = none ∧
      (Either.Err (α := α) (some b)).match' f (fun y => some y) =
        Except.ok (some b) ∧
      (Either.Err (α := α) (some b) : Either α β).ok = none := by
  refine ⟨rfl, rfl, rfl, rfl⟩

/-- C2: the claim reads "for every Either built through one of the two
factories, with any payload value, match never signals UnreachableStateError".
It fails at payload `None`: `match` on `Either.Ok(None)` raises
`UnreachableError`. -/
theorem c2_ok_none_reaches_unreachable :
    (Either.Ok (β := Nat) (none : Option Nat)).match'
        (fun a => a) (fun b => b) =
      Except.error
        (EitherError.unreachableError "Either is in an invalid state.") := by
  rfl

/-- C2 (amended): for every Either built through one of the two factories with
a non-None payload, `match` returns the applied branch normally and never
signals `UnreachableError`. -/
theorem c2_match_no_unreachable (α β T : Type) (a : α) (b : β)
    (f : α → T) (g : β → T) :
    (Either.Ok (β := β) (some a)).match' f g = Except.ok (f a) ∧
      (Either.Err (α := α) (some b)).match' f g = Except.ok (g b) := by
  exact ⟨rfl, rfl⟩

/-- C3: the claim reads "every Either produced by the two factories satisfies:
exactly one payload present, flag consistent, never both or neither".  It
fails for `Either.Ok(None)`: that instance has `ok = None`, `err = None`,
`is_ok = True`, so it holds neither payload. -/
theorem c3_ok_none_violates_invariant :
    ¬ specInvariant (Either.Ok (none : Option Nat) : Either Nat Nat) := by
  decide

/-- C3 (amended): every Either produced by the two factories with a non-None
payload satisfies the invariant: exactly one of the two payloads is present
and the discriminant flag is consistent with it. -/
theorem c3_factories_satisfy_invariant (α β : Type) (a : α) (b : β) :
    specInvariant (Either.Ok (some a) : Either α β) ∧
      specInvariant (Either.Err (some b) : Either α β) := by
  constructor
  · left; simp [Either.Ok]
  · right; simp [Either.Err]

/-- C4: every attempt at direct construction with raw field values, whatever
they are, deterministically raises `PrivateConstructorError` with the stable
message "Use Either.Ok or Either.Err to create an instance.", and never yields
an instance. -/
theorem c4_direct_construction_raises (α β : Type) (ok : Option α)
    (err : Option β) (is_ok : Bool) :
    Either.new α β ok err is_ok =
      Except.error
        (EitherError.privateConstructorError
          "Use Either.Ok or Either.Err to create an instance.") := by
  rfl

/-- C5: for every function and argument, if the call returns normally with
value v the wrapped function returns `Either.Ok v`; if it raises an ordinary
catchable exception e, the wrapped function returns normally (never
re-raises) with `Either.Err e`, the very same exception object as the
payload. -/
theorem c5_as_either_spec (γ α ε : Type) (fn : γ → PyResult (Option α) ε)
    (x : γ) (v : Option α) (e : ε) :
    (fn x = .ret v → as_either fn x = .ret (Either.Ok v)) ∧
      (fn x = .raiseExc e → as_either fn x = .ret (Either.Err (some e))) := by
  constructor
  · intro h; simp [as_either, h]
  · intro h; simp [as_either, h]

/-- C5 witness: `as_either divide` at `(4, 2)` returns `Ok 2` and at `(4, 0)`
returns `Err ZeroDivisionError`. -/
theorem c5_as_either_spec_witness :
    as_either divide (4, 2) = .ret (Either.Ok (some 2)) ∧
      as_either divide (4, 0) =
        .ret (Either.Err (some "ZeroDivisionError")) := by
  refine ⟨?_, ?_⟩
  · exact (c5_as_either_spec (Nat × Nat) Nat String divide (4, 2)
      (some 2) "ZeroDivisionError").1 (by decide)
  · exact (c5_as_either_spec (Nat × Nat) Nat String divide (4, 0)
      (some 2) "ZeroDivisionError").2 (by decide)

/-- C6: for every suspendable operation and argument, awaiting
`as_async_either fn` to completion yields exactly the outcome of `as_either`
applied to the equivalent synchronous operation (the one returning `fn`'s
settled outcome): the two adapters are behaviorally identical apart from the
suspension mechanism. -/
theorem c6_async_refines_sync (γ α ε : Type)
    (fn : γ → AsyncComp (Option α) ε) (x : γ) :
    (as_async_either fn x).settle =
      as_either (fun y => (fn y).settle) x := by
  simpa [as_either, as_async_either] using asyncTryWrap_settle (fn x)

/-- C7: equality of Either instances is structural on the active payload: two
success instances are equal iff their payloads are equal, two failure
instances likewise, and a success instance never equals a failure instance,
whatever the payloads (their `is_ok` flags differ). -/
theorem c7_structural_equality (α β : Type) (v1 v2 : Option α)
    (w1 w2 : Option β) :
    ((Either.Ok (β := β) v1 = Either.Ok (β := β) v2) ↔ v1 = v2) ∧
      ((Either.Err (α := α) w1 = Either.Err (α := α) w2) ↔ w1 = w2) ∧
      Either.Ok (β := β) v1 ≠ Either.Err (α := α) w1 := by
  refine ⟨?_, ?_, ?_⟩
  · simp [Either.Ok, Either.mk.injEq]
  · simp [Either.Err, Either.mk.injEq]
  · simp [Either.Ok, Either.Err, Either.mk.injEq]

/-- C8: `as_either` does not capture process-level faults: if the call raises
a `BaseException` that is not an `Exception`, the wrapped function propagates
that same fault unchanged instead of converting it into a failure payload. -/
theorem c8_base_exception_propagates (γ α ε : Type)
    (fn : γ → PyResult (Option α) ε) (x : γ) (e : ε) :
    fn x = .raiseBase e → as_either fn x = .raiseBase e := by
  intro h; simp [as_either, h]

/-- C8 witness: wrapping an operation that raises `KeyboardInterrupt` (a
`BaseException` outside `Exception`) propagates it unchanged. -/
theorem c8_base_exception_propagates_witness :
    as_either interrupted 0 = .raiseBase "KeyboardInterrupt" :=
  c8_base_exception_propagates Nat Nat String interrupted 0
    "KeyboardInterrupt" (by decide)

/-- C9: matching is idempotent and mutation-free: calling `match` `n` times in
sequence on an instance yields the same result each time (the single-call
result, `n` times over) and leaves the instance unchanged. -/
theorem c9_match_idempotent (α β T : Type) (e : Either α β)
    (f : α → T) (g : β → T) (n : Nat) :
    e.matchIter f g n = (List.replicate n (e.match' f g), e) := by
  induction n with
  | zero => rfl
  | succ n ih =>
    simp [Either.matchIter, Either.matchCall, ih, List.replicate_succ]

/-- C10: because payload absence is encoded as `None`, the instance built by
`Either.Ok(None)` is exactly the success-built instance on which `match`
invokes neither branch and raises `UnreachableError`, and `None` is the
unique payload value with this behavior; symmetrically for
`Either.Err(None)`. -/
theorem c10_none_payload_unreachable (α β T : Type) (f : α → T) (g : β → T)
    (v : Option α) (w : Option β) :
    ((Either.Ok (β := β) v).match' f g =
        Except.error
          (EitherError.unreachableError "Either is in an invalid state.") ↔
      v = none) ∧
      ((Either.Err (α := α) w).match' f g =
          Except.error
            (EitherError.unreachableError "Either is in an invalid state.") ↔
        w = none) := by
  constructor
  · cases v <;> simp [Either.Ok, Either.match']
  · cases w <;> simp [Either.Err, Either.match']
